import Mathlib

/-!
Shallow embedding of `homeassistant/components/nextdns/sensor.py`:
the NextDNS sensor catalog (`SENSORS`) and the `NextDnsSensor` adapter
class, together with theorems checking the specification's claims about
them.

Modelling decisions:
* The five analytics snapshot dataclasses provided by the external
  `nextdns` client library are embedded as Lean structures holding the
  fields that the sensor file reads; numeric values (integer counters
  and floating-point ratio percentages, both passed through unmodified)
  are modelled as rationals.
* The coordinator's current snapshot is a sum type `CoordinatorData`
  with one constructor per snapshot variant.  An extraction function
  applied to a snapshot of the wrong variant raises `AttributeError`
  in Python; this is embedded as `Option`, with `none` for the raising
  branch.
* `NextDnsSensor.__init__` and `NextDnsSensor._handle_coordinator_update`
  become `NextDnsSensor.init` and `NextDnsSensor.handle_coordinator_update`;
  the handler also returns the value republished by
  `async_write_ha_state`.
-/

namespace NextDns

/-- Modelled from the spec: the source-category tag for status snapshots.
The tag constants live in the integration's constants module, which is not
part of the sensor source file; only their mutual distinctness matters. -/
def ATTR_STATUS : String := "status"

/-- Modelled from the spec: the source-category tag for protocol-mix
snapshots. -/
def ATTR_PROTOCOLS : String := "protocols"

/-- Modelled from the spec: the source-category tag for encryption-mix
snapshots. -/
def ATTR_ENCRYPTION : String := "encryption"

/-- Modelled from the spec: the source-category tag for IP-versions-mix
snapshots. -/
def ATTR_IP_VERSIONS : String := "ip_versions"

/-- Modelled from the spec: the source-category tag for DNSSEC-mix
snapshots. -/
def ATTR_DNSSEC : String := "dnssec"

/-- The percentage unit constant from `homeassistant.const`. -/
def PERCENTAGE : String := "%"

/-- Status snapshot (`nextdns.AnalyticsStatus`): the fields read by the
sensor file. -/
structure AnalyticsStatus where
  all_queries : ℚ
  blocked_queries : ℚ
  relayed_queries : ℚ
  blocked_queries_ratio : ℚ
  deriving DecidableEq

/-- Protocol-mix snapshot (`nextdns.AnalyticsProtocols`). -/
structure AnalyticsProtocols where
  doh_queries : ℚ
  dot_queries : ℚ
  doq_queries : ℚ
  udp_queries : ℚ
  doh_queries_ratio : ℚ
  dot_queries_ratio : ℚ
  doq_queries_ratio : ℚ
  udp_queries_ratio : ℚ
  deriving DecidableEq

/-- Encryption-mix snapshot (`nextdns.AnalyticsEncryption`). -/
structure AnalyticsEncryption where
  encrypted_queries : ℚ
  unencrypted_queries : ℚ
  encrypted_queries_ratio : ℚ
  deriving DecidableEq

/-- IP-versions-mix snapshot (`nextdns.AnalyticsIpVersions`). -/
structure AnalyticsIpVersions where
  ipv4_queries : ℚ
  ipv6_queries : ℚ
  ipv6_queries_ratio : ℚ
  deriving DecidableEq

/-- DNSSEC-mix snapshot (`nextdns.AnalyticsDnssec`). -/
structure AnalyticsDnssec where
  validated_queries : ℚ
  not_validated_queries : ℚ
  validated_queries_ratio : ℚ
  deriving DecidableEq

/-- The coordinator's current snapshot: one of the five analytics
variants (`TCoordinatorData` instantiations used by the sensor file). -/
inductive CoordinatorData where
  | status (d : AnalyticsStatus)
  | protocols (d : AnalyticsProtocols)
  | encryption (d : AnalyticsEncryption)
  | ipVersions (d : AnalyticsIpVersions)
  | dnssec (d : AnalyticsDnssec)
  deriving DecidableEq

/-- The source-category tag of a snapshot's variant, for checking which
coordinator a catalog entry is bound to. -/
def CoordinatorData.variant_tag : CoordinatorData → String
  | .status _ => ATTR_STATUS
  | .protocols _ => ATTR_PROTOCOLS
  | .encryption _ => ATTR_ENCRYPTION
  | .ipVersions _ => ATTR_IP_VERSIONS
  | .dnssec _ => ATTR_DNSSEC

/-- `homeassistant.helpers.entity.EntityCategory` (only the member the
sensor file uses). -/
inductive EntityCategory where
  | diagnostic
  deriving DecidableEq

/-- `homeassistant.components.sensor.SensorStateClass` (only the member
the sensor file uses). -/
inductive SensorStateClass where
  | measurement
  deriving DecidableEq

/-- `NextDnsSensorEntityDescription`: the `SensorEntityDescription`
fields set by the catalog plus the required-keys mixin
(`coordinator_type`, `value`).  `entity_registry_enabled_default`
defaults to `true` as in Home Assistant's `EntityDescription`. -/
structure NextDnsSensorEntityDescription where
  key : String
  coordinator_type : String
  entity_category : EntityCategory
  entity_registry_enabled_default : Bool := true
  icon : String
  name : String
  native_unit_of_measurement : String
  state_class : SensorStateClass
  value : CoordinatorData → Option ℚ

/-- The `SENSORS` catalog: all 21 entity descriptions, in source order.
Each closure `lambda data: data.f` becomes a match that projects the
field on the matching variant and is `none` (raises) otherwise. -/
def SENSORS : List NextDnsSensorEntityDescription := [
  { key := "all_queries"
    coordinator_type := ATTR_STATUS
    entity_category := .diagnostic
    icon := "mdi:dns"
    name := "DNS queries"
    native_unit_of_measurement := "queries"
    state_class := .measurement
    value := fun data => match data with
      | .status d => some d.all_queries
      | _ => none },
  { key := "blocked_queries"
    coordinator_type := ATTR_STATUS
    entity_category := .diagnostic
    icon := "mdi:dns"
    name := "DNS queries blocked"
    native_unit_of_measurement := "queries"
    state_class := .measurement
    value := fun data => match data with
      | .status d => some d.blocked_queries
      | _ => none },
  { key := "relayed_queries"
    coordinator_type := ATTR_STATUS
    entity_category := .diagnostic
    icon := "mdi:dns"
    name := "DNS queries relayed"
    native_unit_of_measurement := "queries"
    state_class := .measurement
    value := fun data => match data with
      | .status d => some d.relayed_queries
      | _ => none },
  { key := "blocked_queries_ratio"
    coordinator_type := ATTR_STATUS
    entity_category := .diagnostic
    icon := "mdi:dns"
    name := "DNS queries blocked ratio"
    native_unit_of_measurement := PERCENTAGE
    state_class := .measurement
    value := fun data => match data with
      | .status d => some d.blocked_queries_ratio
      | _ => none },
  { key := "doh_queries"
    coordinator_type := ATTR_PROTOCOLS
    entity_category := .diagnostic
    entity_registry_enabled_default := false
    icon := "mdi:dns"
    name := "DNS-over-HTTPS queries"
    native_unit_of_measurement := "queries"
    state_class := .measurement
    value := fun data => match data with
      | .protocols d => some d.doh_queries
      | _ => none },
  { key := "dot_queries"
    coordinator_type := ATTR_PROTOCOLS
    entity_category := .diagnostic
    entity_registry_enabled_default := false
    icon := "mdi:dns"
    name := "DNS-over-TLS queries"
    native_unit_of_measurement := "queries"
    state_class := .measurement
    value := fun data => match data with
      | .protocols d => some d.dot_queries
      | _ => none },
  { key := "doq_queries"
    coordinator_type := ATTR_PROTOCOLS
    entity_category := .diagnostic
    entity_registry_enabled_default := false
    icon := "mdi:dns"
    name := "DNS-over-QUIC queries"
    native_unit_of_measurement := "queries"
    state_class := .measurement
    value := fun data => match data with
      | .protocols d => some d.doq_queries
      | _ => none },
  { key := "udp_queries"
    coordinator_type := ATTR_PROTOCOLS
    entity_category := .diagnostic
    entity_registry_enabled_default := false
    icon := "mdi:dns"
    name := "UDP queries"
    native_unit_of_measurement := "queries"
    state_class := .measurement
    value := fun data => match data with
      | .protocols d => some d.udp_queries
      | _ => none },
  { key := "doh_queries_ratio"
    coordinator_type := ATTR_PROTOCOLS
    entity_registry_enabled_default := false
    icon := "mdi:dns"
    entity_category := .diagnostic
    name := "DNS-over-HTTPS queries ratio"
    native_unit_of_measurement := PERCENTAGE
    state_class := .measurement
    value := fun data => match data with
      | .protocols d => some d.doh_queries_ratio
      | _ => none },
  { key := "dot_queries_ratio"
    coordinator_type := ATTR_PROTOCOLS
    entity_category := .diagnostic
    entity_registry_enabled_default := false
    icon := "mdi:dns"
    name := "DNS-over-TLS queries ratio"
    native_unit_of_measurement := PERCENTAGE
    state_class := .measurement
    value := fun data => match data with
      | .protocols d => some d.dot_queries_ratio
      | _ => none },
  { key := "doq_queries_ratio"
    coordinator_type := ATTR_PROTOCOLS
    entity_registry_enabled_default := false
    icon := "mdi:dns"
    entity_category := .diagnostic
    name := "DNS-over-QUIC queries ratio"
    native_unit_of_measurement := PERCENTAGE
    state_class := .measurement
    value := fun data => match data with
      | .protocols d => some d.doq_queries_ratio
      | _ => none },
  { key := "udp_queries_ratio"
    coordinator_type := ATTR_PROTOCOLS
    entity_category := .diagnostic
    entity_registry_enabled_default := false
    icon := "mdi:dns"
    name := "UDP queries ratio"
    native_unit_of_measurement := PERCENTAGE
    state_class := .measurement
    value := fun data => match data with
      | .protocols d => some d.udp_queries_ratio
      | _ => none },
  { key := "encrypted_queries"
    coordinator_type := ATTR_ENCRYPTION
    entity_category := .diagnostic
    entity_registry_enabled_default := false
    icon := "mdi:lock"
    name := "Encrypted queries"
    native_unit_of_measurement := "queries"
    state_class := .measurement
    value := fun data => match data with
      | .encryption d => some d.encrypted_queries
      | _ => none },
  { key := "unencrypted_queries"
    coordinator_type := ATTR_ENCRYPTION
    entity_category := .diagnostic
    entity_registry_enabled_default := false
    icon := "mdi:lock-open"
    name := "Unencrypted queries"
    native_unit_of_measurement := "queries"
    state_class := .measurement
    value := fun data => match data with
      | .encryption d => some d.unencrypted_queries
      | _ => none },
  { key := "encrypted_queries_ratio"
    coordinator_type := ATTR_ENCRYPTION
    entity_category := .diagnostic
    entity_registry_enabled_default := false
    icon := "mdi:lock"
    name := "Encrypted queries ratio"
    native_unit_of_measurement := PERCENTAGE
    state_class := .measurement
    value := fun data => match data with
      | .encryption d => some d.encrypted_queries_ratio
      | _ => none },
  { key := "ipv4_queries"
    coordinator_type := ATTR_IP_VERSIONS
    entity_category := .diagnostic
    entity_registry_enabled_default := false
    icon := "mdi:ip"
    name := "IPv4 queries"
    native_unit_of_measurement := "queries"
    state_class := .measurement
    value := fun data => match data with
      | .ipVersions d => some d.ipv4_queries
      | _ => none },
  { key := "ipv6_queries"
    coordinator_type := ATTR_IP_VERSIONS
    entity_category := .diagnostic
    entity_registry_enabled_default := false
    icon := "mdi:ip"
    name := "IPv6 queries"
    native_unit_of_measurement := "queries"
    state_class := .measurement
    value := fun data => match data with
      | .ipVersions d => some d.ipv6_queries
      | _ => none },
  { key := "ipv6_queries_ratio"
    coordinator_type := ATTR_IP_VERSIONS
    entity_category := .diagnostic
    entity_registry_enabled_default := false
    icon := "mdi:ip"
    name := "IPv6 queries ratio"
    native_unit_of_measurement := PERCENTAGE
    state_class := .measurement
    value := fun data => match data with
      | .ipVersions d => some d.ipv6_queries_ratio
      | _ => none },
  { key := "validated_queries"
    coordinator_type := ATTR_DNSSEC
    entity_category := .diagnostic
    entity_registry_enabled_default := false
    icon := "mdi:lock-check"
    name := "DNSSEC validated queries"
    native_unit_of_measurement := "queries"
    state_class := .measurement
    value := fun data => match data with
      | .dnssec d => some d.validated_queries
      | _ => none },
  { key := "not_validated_queries"
    coordinator_type := ATTR_DNSSEC
    entity_category := .diagnostic
    entity_registry_enabled_default := false
    icon := "mdi:lock-alert"
    name := "DNSSEC not validated queries"
    native_unit_of_measurement := "queries"
    state_class := .measurement
    value := fun data => match data with
      | .dnssec d => some d.not_validated_queries
      | _ => none },
  { key := "validated_queries_ratio"
    coordinator_type := ATTR_DNSSEC
    entity_category := .diagnostic
    entity_registry_enabled_default := false
    icon := "mdi:lock-check"
    name := "DNSSEC validated queries ratio"
    native_unit_of_measurement := PERCENTAGE
    state_class := .measurement
    value := fun data => match data with
      | .dnssec d => some d.validated_queries_ratio
      | _ => none }]

/-- The slice of `NextDnsUpdateCoordinator` the sensor file reads:
opaque device metadata, the profile identifier, and the current
snapshot. -/
structure NextDnsUpdateCoordinator where
  device_info : String
  profile_id : String
  data : CoordinatorData
  deriving DecidableEq

/-- The derived unique identifier, the f-string
`f"{coordinator.profile_id}_{description.key}"` from `__init__`. -/
def unique_id_of (profile_id key : String) : String :=
  profile_id ++ "_" ++ key

/-- `NextDnsSensor` instance state: the `_attr_*` attributes set by
`__init__` plus the bound entity description. -/
structure NextDnsSensor where
  _attr_device_info : String
  _attr_unique_id : String
  _attr_native_value : ℚ
  entity_description : NextDnsSensorEntityDescription

/-- `NextDnsSensor.__init__`: binds device info, derives the unique id,
and computes the initial displayed value by applying the description's
extraction function to the coordinator's current snapshot.  `none`
embeds the `AttributeError` raised when the snapshot is not of the
description's variant. -/
def NextDnsSensor.init (coordinator : NextDnsUpdateCoordinator)
    (description : NextDnsSensorEntityDescription) : Option NextDnsSensor :=
  match description.value coordinator.data with
  | some v => some
      { _attr_device_info := coordinator.device_info
        _attr_unique_id := unique_id_of coordinator.profile_id description.key
        _attr_native_value := v
        entity_description := description }
  | none => none

/-- `NextDnsSensor._handle_coordinator_update`: recomputes the displayed
value from the coordinator's current snapshot, then republishes it via
`async_write_ha_state`.  Returns the updated sensor together with the
republished value; `none` embeds the raising branch. -/
def NextDnsSensor.handle_coordinator_update (self : NextDnsSensor)
    (coordinator : NextDnsUpdateCoordinator) : Option (NextDnsSensor × ℚ) :=
  match self.entity_description.value coordinator.data with
  | some v => some ({ self with _attr_native_value := v }, v)
  | none => none

/-- Delivering a sequence of update notifications: before each
notification the coordinator's snapshot is replaced by the next element
of the list, then the adapter's update handler runs. -/
def NextDnsSensor.run_updates (coordinator : NextDnsUpdateCoordinator)
    (self : NextDnsSensor) : List CoordinatorData → Option NextDnsSensor
  | [] => some self
  | d :: rest =>
    match self.handle_coordinator_update { coordinator with data := d } with
    | some (s, _) => s.run_updates { coordinator with data := d } rest
    | none => none

/-- The snapshot held by the coordinator after a sequence of
notifications: the last delivered snapshot, or the initial one if no
notification was delivered. -/
def latest_data (coordinator : NextDnsUpdateCoordinator)
    (snaps : List CoordinatorData) : CoordinatorData :=
  snaps.getLastD coordinator.data

/-- The first catalog entry, `all_queries` (a status sensor). -/
def sensor_all_queries : NextDnsSensorEntityDescription :=
  SENSORS.get ⟨0, by decide⟩

/-- The second catalog entry, `blocked_queries` (a status sensor). -/
def sensor_blocked_queries : NextDnsSensorEntityDescription :=
  SENSORS.get ⟨1, by decide⟩

/-- The fourth catalog entry, `blocked_queries_ratio` (a status sensor). -/
def sensor_blocked_queries_ratio : NextDnsSensorEntityDescription :=
  SENSORS.get ⟨3, by decide⟩

/-- A concrete status snapshot matching the spec's concrete scenario. -/
def sample_status : AnalyticsStatus :=
  { all_queries := 1000
    blocked_queries := 250
    relayed_queries := 100
    blocked_queries_ratio := 25 }

/-- A second concrete status snapshot, for update sequencing. -/
def sample_status2 : AnalyticsStatus :=
  { all_queries := 2000
    blocked_queries := 500
    relayed_queries := 150
    blocked_queries_ratio := 25 }

/-- A concrete coordinator holding `sample_status`. -/
def sample_coordinator : NextDnsUpdateCoordinator :=
  { device_info := "device"
    profile_id := "profile"
    data := .status sample_status }

/-- The sensor produced by `NextDnsSensor.init sample_coordinator
sensor_all_queries`. -/
def sample_sensor0 : NextDnsSensor :=
  { _attr_device_info := "device"
    _attr_unique_id := "profile_all_queries"
    _attr_native_value := 1000
    entity_description := sensor_all_queries }

/-- `sample_sensor0` after one notification carrying `sample_status2`. -/
def sample_sensorN : NextDnsSensor :=
  { sample_sensor0 with _attr_native_value := 2000 }

/-- Every catalog entry's extraction function succeeds on every snapshot
of the variant named by its `coordinator_type` tag: the closures are
plain field reads on the matching dataclass. -/
theorem sensors_total :
    ∀ d ∈ SENSORS, ∀ snap : CoordinatorData,
      d.coordinator_type = snap.variant_tag → (d.value snap).isSome := by
  intro d hd snap htag
  simp only [SENSORS, List.mem_cons, List.not_mem_nil, or_false] at hd
  rcases hd with rfl | rfl | rfl | rfl | rfl | rfl | rfl | rfl | rfl | rfl | rfl
    | rfl | rfl | rfl | rfl | rfl | rfl | rfl | rfl | rfl | rfl <;>
    cases snap <;>
    simp_all [CoordinatorData.variant_tag, ATTR_STATUS, ATTR_PROTOCOLS,
      ATTR_ENCRYPTION, ATTR_IP_VERSIONS, ATTR_DNSSEC]

/-- Running a sequence of update notifications preserves the bound
description and leaves the displayed value equal to the extraction of
the latest snapshot (the pure-projection invariant). -/
theorem run_updates_projection (snaps : List CoordinatorData) :
    ∀ (coordinator : NextDnsUpdateCoordinator) (s sN : NextDnsSensor),
      s.entity_description.value coordinator.data = some s._attr_native_value →
      s.run_updates coordinator snaps = some sN →
      sN.entity_description = s.entity_description ∧
      sN.entity_description.value (latest_data coordinator snaps) =
        some sN._attr_native_value := by
  induction snaps with
  | nil =>
    intro c s sN hinv hrun
    simp only [NextDnsSensor.run_updates, Option.some.injEq] at hrun
    subst hrun
    exact ⟨rfl, by simpa [latest_data] using hinv⟩
  | cons d rest ih =>
    intro c s sN hinv hrun
    cases hv : s.entity_description.value d with
    | none =>
      simp [NextDnsSensor.run_updates, NextDnsSensor.handle_coordinator_update,
        hv] at hrun
    | some v =>
      simp only [NextDnsSensor.run_updates,
        NextDnsSensor.handle_coordinator_update, hv] at hrun
      have h2 := ih { c with data := d } { s with _attr_native_value := v } sN
        (by simpa using hv) hrun
      simp only [latest_data] at h2 ⊢
      rw [List.getLastD_cons]
      exact h2

/-- Claim C1: for every sensor adapter and every sequence of update
notifications, after each notification (and at construction, the empty
sequence) the adapter's displayed value equals its definition's
extraction function applied to the latest snapshot held by the bound
coordinator, and the bound description is unchanged: the value is a
pure projection, never retained from an older snapshot. -/
theorem displayed_value_is_pure_projection
    (coordinator : NextDnsUpdateCoordinator)
    (description : NextDnsSensorEntityDescription)
    (s0 sN : NextDnsSensor) (snaps : List CoordinatorData)
    (hinit : NextDnsSensor.init coordinator description = some s0)
    (hrun : s0.run_updates coordinator snaps = some sN) :
    sN.entity_description = description ∧
    description.value (latest_data coordinator snaps) =
      some sN._attr_native_value := by
  have hinv : s0.entity_description.value coordinator.data =
      some s0._attr_native_value ∧ s0.entity_description = description := by
    unfold NextDnsSensor.init at hinit
    cases hv : description.value coordinator.data with
    | none => simp [hv] at hinit
    | some v =>
      rw [hv] at hinit
      simp only [Option.some.injEq] at hinit
      subst hinit
      exact ⟨hv, rfl⟩
  have h := run_updates_projection snaps coordinator s0 sN hinv.1 hrun
  rw [hinv.2] at h
  exact ⟨h.1, by rw [← h.1]; exact h.2⟩

/-- Claim C1 witness: the `all_queries` adapter, constructed on
`sample_status` and notified once with `sample_status2`, displays the
extraction of the latest snapshot. -/
theorem displayed_value_is_pure_projection_witness :
    NextDnsSensor.init sample_coordinator sensor_all_queries =
      some sample_sensor0 ∧
    sample_sensor0.run_updates sample_coordinator
      [.status sample_status2] = some sample_sensorN ∧
    (sample_sensorN.entity_description = sensor_all_queries ∧
     sensor_all_queries.value
        (latest_data sample_coordinator [.status sample_status2]) =
       some sample_sensorN._attr_native_value) := by
  have h1 : NextDnsSensor.init sample_coordinator sensor_all_queries =
      some sample_sensor0 := rfl
  have h2 : sample_sensor0.run_updates sample_coordinator
      [.status sample_status2] = some sample_sensorN := rfl
  exact ⟨h1, h2,
    displayed_value_is_pure_projection sample_coordinator sensor_all_queries
      sample_sensor0 sample_sensorN [.status sample_status2] h1 h2⟩

/-- Claim C2: for every catalog definition and every coordinator whose
current snapshot is of the definition's matching variant, construction
succeeds and the initial displayed value equals the extraction function
applied directly to that snapshot. -/
theorem init_displayed_value_eq_extraction
    (coordinator : NextDnsUpdateCoordinator)
    (description : NextDnsSensorEntityDescription)
    (hmem : description ∈ SENSORS)
    (hvar : description.coordinator_type = coordinator.data.variant_tag) :
    Option.map (fun s => s._attr_native_value)
        (NextDnsSensor.init coordinator description) =
      description.value coordinator.data := by
  have htot := sensors_total description hmem coordinator.data hvar
  unfold NextDnsSensor.init
  cases hv : description.value coordinator.data with
  | none => rw [hv] at htot; simp at htot
  | some v => simp [hv]

/-- Claim C2 witness: constructing the `all_queries` adapter on
`sample_coordinator` displays the directly-extracted value. -/
theorem init_displayed_value_eq_extraction_witness :
    sensor_all_queries ∈ SENSORS ∧
    sensor_all_queries.coordinator_type =
      sample_coordinator.data.variant_tag ∧
    Option.map (fun s => s._attr_native_value)
        (NextDnsSensor.init sample_coordinator sensor_all_queries) =
      sensor_all_queries.value sample_coordinator.data := by
  have hmem : sensor_all_queries ∈ SENSORS := List.get_mem SENSORS 0 (by decide)
  have hvar : sensor_all_queries.coordinator_type =
      sample_coordinator.data.variant_tag := rfl
  exact ⟨hmem, hvar,
    init_displayed_value_eq_extraction sample_coordinator sensor_all_queries
      hmem hvar⟩

/-- Claim C3: delivering two successive update notifications while the
coordinator holds S1 and then S2 leaves the final displayed value equal
to the extraction of S2; when the extractions differ it is therefore
never the extraction of S1. -/
theorem two_updates_display_latest
    (coordinator : NextDnsUpdateCoordinator) (s : NextDnsSensor)
    (S1 S2 : CoordinatorData) (s1 s2 : NextDnsSensor) (v1 v2 : ℚ)
    (h1 : s.handle_coordinator_update { coordinator with data := S1 } =
      some (s1, v1))
    (h2 : s1.handle_coordinator_update { coordinator with data := S2 } =
      some (s2, v2)) :
    s.entity_description.value S2 = some s2._attr_native_value ∧
    (s.entity_description.value S1 ≠ s.entity_description.value S2 →
      s.entity_description.value S1 ≠ some s2._attr_native_value) := by
  unfold NextDnsSensor.handle_coordinator_update at h1 h2
  cases hv1 : s.entity_description.value S1 with
  | none => simp [hv1] at h1
  | some w1 =>
    rw [show ({ coordinator with data := S1 } :
        NextDnsUpdateCoordinator).data = S1 from rfl, hv1] at h1
    simp only [Option.some.injEq, Prod.mk.injEq] at h1
    obtain ⟨hs1, hv⟩ := h1
    subst hs1
    cases hv2 : s.entity_description.value S2 with
    | none => simp [hv2] at h2
    | some w2 =>
      rw [show ({ coordinator with data := S2 } :
          NextDnsUpdateCoordinator).data = S2 from rfl] at h2
      rw [show ({ s with _attr_native_value := w1 } :
          NextDnsSensor).entity_description = s.entity_description from rfl,
        hv2] at h2
      simp only [Option.some.injEq, Prod.mk.injEq] at h2
      obtain ⟨hs2, _⟩ := h2
      subst hs2
      exact ⟨rfl, fun hne => hne⟩

/-- Claim C3 witness: two notifications carrying `sample_status` then
`sample_status2` leave the `all_queries` adapter displaying 2000. -/
theorem two_updates_display_latest_witness :
    sample_sensor0.handle_coordinator_update
        { sample_coordinator with data := .status sample_status } =
      some (sample_sensor0, 1000) ∧
    sample_sensor0.handle_coordinator_update
        { sample_coordinator with data := .status sample_status2 } =
      some (sample_sensorN, 2000) ∧
    (sample_sensor0.entity_description.value (.status sample_status2) =
        some sample_sensorN._attr_native_value ∧
     (sample_sensor0.entity_description.value (.status sample_status) ≠
        sample_sensor0.entity_description.value (.status sample_status2) →
      sample_sensor0.entity_description.value (.status sample_status) ≠
        some sample_sensorN._attr_native_value)) := by
  have h1 : sample_sensor0.handle_coordinator_update
      { sample_coordinator with data := .status sample_status } =
      some (sample_sensor0, 1000) := rfl
  have h2 : sample_sensor0.handle_coordinator_update
      { sample_coordinator with data := .status sample_status2 } =
      some (sample_sensorN, 2000) := rfl
  exact ⟨h1, h2,
    two_updates_display_latest sample_coordinator sample_sensor0
      (.status sample_status) (.status sample_status2) sample_sensor0
      sample_sensorN 1000 2000 h1 h2⟩

/-- Claim C4: the derived unique identifier
`profile_id ++ "_" ++ key` is injective in both stated shapes: under a
fixed profile, distinct keys give distinct identifiers; for a fixed
definition, distinct profiles give distinct identifiers. -/
theorem unique_id_injective :
    (∀ (profile_id : String) (d1 d2 : NextDnsSensorEntityDescription),
        d1.key ≠ d2.key →
        unique_id_of profile_id d1.key ≠ unique_id_of profile_id d2.key) ∧
    (∀ (p1 p2 : String) (d : NextDnsSensorEntityDescription),
        p1 ≠ p2 →
        unique_id_of p1 d.key ≠ unique_id_of p2 d.key) := by
  constructor
  · intro p d1 d2 hne heq
    apply hne
    unfold unique_id_of at heq
    have hd := congrArg String.data heq
    simp only [String.data_append, List.append_cancel_left_eq] at hd
    exact String.ext hd
  · intro p1 p2 d hne heq
    apply hne
    unfold unique_id_of at heq
    have hd := congrArg String.data heq
    simp only [String.data_append, List.append_cancel_right_eq] at hd
    exact String.ext hd

/-- Claim C4 witness: concrete non-collisions for the two shapes, using
the first two catalog keys and two distinct profiles. -/
theorem unique_id_injective_witness :
    sensor_all_queries.key ≠ sensor_blocked_queries.key ∧
    unique_id_of "profile" sensor_all_queries.key ≠
      unique_id_of "profile" sensor_blocked_queries.key ∧
    ("profile" : String) ≠ "profile2" ∧
    unique_id_of "profile" sensor_all_queries.key ≠
      unique_id_of "profile2" sensor_all_queries.key := by
  have hk : sensor_all_queries.key ≠ sensor_blocked_queries.key := by decide
  have hp : ("profile" : String) ≠ "profile2" := by decide
  exact ⟨hk, unique_id_injective.1 "profile" sensor_all_queries
      sensor_blocked_queries hk, hp,
    unique_id_injective.2 "profile" "profile2" sensor_all_queries hp⟩

/-- Claim C5: invoking the update handler twice in succession while the
coordinator's snapshot is unchanged leaves the sensor state unchanged
and republishes the same value. -/
theorem update_handler_idempotent
    (coordinator : NextDnsUpdateCoordinator) (s s1 s2 : NextDnsSensor)
    (v1 v2 : ℚ)
    (h1 : s.handle_coordinator_update coordinator = some (s1, v1))
    (h2 : s1.handle_coordinator_update coordinator = some (s2, v2)) :
    s2 = s1 ∧ v2 = v1 := by
  unfold NextDnsSensor.handle_coordinator_update at h1 h2
  cases hv : s.entity_description.value coordinator.data with
  | none => rw [hv] at h1; simp at h1
  | some w =>
    rw [hv] at h1
    simp only [Option.some.injEq, Prod.mk.injEq] at h1
    obtain ⟨hs1, hw1⟩ := h1
    subst hs1
    rw [show ({ s with _attr_native_value := w } :
        NextDnsSensor).entity_description = s.entity_description from rfl,
      hv] at h2
    simp only [Option.some.injEq, Prod.mk.injEq] at h2
    obtain ⟨hs2, hw2⟩ := h2
    subst hs2
    exact ⟨rfl, by rw [← hw1, ← hw2]⟩

/-- Claim C5 witness: a second notification with the unchanged
`sample_status2` snapshot leaves `sample_sensorN` as it is. -/
theorem update_handler_idempotent_witness :
    sample_sensor0.handle_coordinator_update
        { sample_coordinator with data := .status sample_status2 } =
      some (sample_sensorN, 2000) ∧
    sample_sensorN.handle_coordinator_update
        { sample_coordinator with data := .status sample_status2 } =
      some (sample_sensorN, 2000) ∧
    (sample_sensorN = sample_sensorN ∧ (2000 : ℚ) = 2000) := by
  have h1 : sample_sensor0.handle_coordinator_update
      { sample_coordinator with data := .status sample_status2 } =
      some (sample_sensorN, 2000) := rfl
  have h2 : sample_sensorN.handle_coordinator_update
      { sample_coordinator with data := .status sample_status2 } =
      some (sample_sensorN, 2000) := rfl
  exact ⟨h1, h2,
    update_handler_idempotent
      { sample_coordinator with data := .status sample_status2 }
      sample_sensor0 sample_sensorN sample_sensorN 2000 2000 h1 h2⟩

/-- Claim C6 counterexample: the `ipv4_queries` catalog entry carries
the IP-versions tag, which is none of the four variants named by the
claim (status, protocol-mix, encryption-mix, DNSSEC-mix): the catalog
spans five snapshot variants, not four. -/
theorem catalog_tag_outside_four_variants :
    SENSORS.get ⟨15, by decide⟩ ∈ SENSORS ∧
    (SENSORS.get ⟨15, by decide⟩).key = "ipv4_queries" ∧
    (SENSORS.get ⟨15, by decide⟩).coordinator_type ∉
      [ATTR_STATUS, ATTR_PROTOCOLS, ATTR_ENCRYPTION, ATTR_DNSSEC] := by
  exact ⟨List.get_mem SENSORS 15 (by decide), by decide, by decide⟩

/-- Claim C6 (amended): every catalog definition's `coordinator_type`
tag is one of the five supported snapshot variants (status,
protocol-mix, encryption-mix, IP-versions-mix, DNSSEC-mix); no
definition references a category outside these five. -/
theorem catalog_tags_among_five_variants :
    ∀ d ∈ SENSORS,
      d.coordinator_type ∈
        [ATTR_STATUS, ATTR_PROTOCOLS, ATTR_ENCRYPTION, ATTR_IP_VERSIONS,
          ATTR_DNSSEC] := by
  decide

/-- Claim C6 witness: the first catalog entry carries one of the five
variant tags. -/
theorem catalog_tags_among_five_variants_witness :
    sensor_all_queries ∈ SENSORS ∧
    sensor_all_queries.coordinator_type ∈
      [ATTR_STATUS, ATTR_PROTOCOLS, ATTR_ENCRYPTION, ATTR_IP_VERSIONS,
        ATTR_DNSSEC] := by
  have hmem : sensor_all_queries ∈ SENSORS := List.get_mem SENSORS 0 (by decide)
  exact ⟨hmem, catalog_tags_among_five_variants sensor_all_queries hmem⟩

/-- Claim C7: on a status snapshot with `all_queries = 1000`,
`blocked_queries = 250` and the upstream-precomputed ratio field 25,
the `all_queries` adapter displays 1000 and the
`blocked_queries_ratio` adapter displays 25 (the precomputed ratio
passed through unmodified). -/
theorem status_scenario_values
    (coordinator : NextDnsUpdateCoordinator) (st : AnalyticsStatus)
    (hdata : coordinator.data = .status st)
    (hall : st.all_queries = 1000)
    (_hblocked : st.blocked_queries = 250)
    (hratio : st.blocked_queries_ratio = 25) :
    Option.map (fun s => s._attr_native_value)
        (NextDnsSensor.init coordinator sensor_all_queries) = some 1000 ∧
    Option.map (fun s => s._attr_native_value)
        (NextDnsSensor.init coordinator sensor_blocked_queries_ratio) =
      some 25 := by
  have h1 : ∀ (d : NextDnsSensorEntityDescription) (w : ℚ),
      d.value coordinator.data = some w →
      Option.map (fun s => s._attr_native_value)
        (NextDnsSensor.init coordinator d) = some w := by
    intro d w hw
    unfold NextDnsSensor.init
    rw [hw]
    rfl
  constructor
  · refine h1 sensor_all_queries 1000 ?_
    rw [hdata]
    show some st.all_queries = some 1000
    rw [hall]
  · refine h1 sensor_blocked_queries_ratio 25 ?_
    rw [hdata]
    show some st.blocked_queries_ratio = some 25
    rw [hratio]

/-- Claim C7 witness: the concrete scenario on `sample_status`. -/
theorem status_scenario_values_witness :
    sample_coordinator.data = .status sample_status ∧
    sample_status.all_queries = 1000 ∧
    sample_status.blocked_queries = 250 ∧
    sample_status.blocked_queries_ratio = 25 ∧
    (Option.map (fun s => s._attr_native_value)
        (NextDnsSensor.init sample_coordinator sensor_all_queries) =
      some 1000 ∧
     Option.map (fun s => s._attr_native_value)
        (NextDnsSensor.init sample_coordinator
          sensor_blocked_queries_ratio) = some 25) := by
  exact ⟨rfl, rfl, rfl, rfl,
    status_scenario_values sample_coordinator sample_status rfl rfl rfl rfl⟩

/-- Claim C8: for every catalog definition and every coordinator whose
snapshot is of the definition's matching variant, the bound adapter's
update handler completes without raising — the extraction function is a
total field read over its variant, so the raising branch is
unreachable. -/
theorem update_handler_total_on_matching_variant
    (description : NextDnsSensorEntityDescription)
    (hmem : description ∈ SENSORS)
    (coordinator : NextDnsUpdateCoordinator) (s : NextDnsSensor)
    (hdesc : s.entity_description = description)
    (hvar : description.coordinator_type = coordinator.data.variant_tag) :
    (s.handle_coordinator_update coordinator).isSome := by
  have htot := sensors_total description hmem coordinator.data hvar
  unfold NextDnsSensor.handle_coordinator_update
  rw [hdesc]
  cases hv : description.value coordinator.data with
  | none => rw [hv] at htot; simp at htot
  | some v => rfl

/-- Claim C8 witness: the `all_queries` adapter's handler succeeds on
`sample_coordinator`. -/
theorem update_handler_total_on_matching_variant_witness :
    sensor_all_queries ∈ SENSORS ∧
    sample_sensor0.entity_description = sensor_all_queries ∧
    sensor_all_queries.coordinator_type =
      sample_coordinator.data.variant_tag ∧
    (sample_sensor0.handle_coordinator_update sample_coordinator).isSome := by
  have hmem : sensor_all_queries ∈ SENSORS := List.get_mem SENSORS 0 (by decide)
  have hdesc : sample_sensor0.entity_description = sensor_all_queries := rfl
  have hvar : sensor_all_queries.coordinator_type =
      sample_coordinator.data.variant_tag := rfl
  exact ⟨hmem, hdesc, hvar,
    update_handler_total_on_matching_variant sensor_all_queries hmem
      sample_coordinator sample_sensor0 hdesc hvar⟩

/-- Claim C9: the catalog's key strings are pairwise distinct, so each
definition is uniquely identified by its key within `SENSORS`. -/
theorem sensor_keys_nodup : (SENSORS.map (fun d => d.key)).Nodup := by
  decide

/-- Claim C10: the update handler modifies only the displayed value —
the unique identifier, the device-association info and the bound entity
description are identical before and after it runs. -/
theorem update_handler_frame
    (coordinator : NextDnsUpdateCoordinator) (s s' : NextDnsSensor) (v : ℚ)
    (h : s.handle_coordinator_update coordinator = some (s', v)) :
    s'._attr_unique_id = s._attr_unique_id ∧
    s'._attr_device_info = s._attr_device_info ∧
    s'.entity_description = s.entity_description := by
  unfold NextDnsSensor.handle_coordinator_update at h
  cases hv : s.entity_description.value coordinator.data with
  | none => rw [hv] at h; simp at h
  | some w =>
    rw [hv] at h
    simp only [Option.some.injEq, Prod.mk.injEq] at h
    obtain ⟨hs, _⟩ := h
    subst hs
    exact ⟨rfl, rfl, rfl⟩

/-- Claim C10 witness: one concrete handler run changes only the
displayed value of `sample_sensor0`. -/
theorem update_handler_frame_witness :
    sample_sensor0.handle_coordinator_update
        { sample_coordinator with data := .status sample_status2 } =
      some (sample_sensorN, 2000) ∧
    (sample_sensorN._attr_unique_id = sample_sensor0._attr_unique_id ∧
     sample_sensorN._attr_device_info = sample_sensor0._attr_device_info ∧
     sample_sensorN.entity_description = sample_sensor0.entity_description) := by
  have h : sample_sensor0.handle_coordinator_update
      { sample_coordinator with data := .status sample_status2 } =
      some (sample_sensorN, 2000) := rfl
  exact ⟨h, update_handler_frame
    { sample_coordinator with data := .status sample_status2 }
    sample_sensor0 sample_sensorN 2000 h⟩

end NextDns
